import Mathlib

/-!
Verification development for the LinkedIn messaging tool-call engine.

The repository has two revisions of the tool-call module:
  * `src/app/toolcalls.py`              — embedded below in namespace `App`
  * `src/linkedln-use/app/toolcalls.py` — embedded below in namespace `LU`

The browser page is modelled as a first-order state (`Page`): the conversation
card elements present in the DOM, the CSRF cookie, the payloads that the
scripted in-page API calls would return, the element-visibility outcomes of the
bounded waits, and the per-selector innerText results of each card.  Python
truthiness on optional strings is modelled explicitly, `list[:limit]` slicing
is modelled with its exact negative-index semantics, and the pydantic
`ResponseMessage` model validator is applied at construction exactly as the
source's `refine_status` does.
-/

/-- Python truthiness of an optional string: `None` and `''` are falsy. -/
def truthyO : Option String → Bool
  | none => false
  | some s => s ≠ ""

/-- Python `a or d` for an optional string `a` and a plain-string default `d`. -/
def pyOr (a : Option String) (d : String) : String :=
  match a with
  | some v => if v ≠ "" then v else d
  | none => d

/-- Python `s or d` for two plain strings. -/
def pyOrS (s d : String) : String :=
  if s ≠ "" then s else d

/-- Python `a or b` on two optional strings: first truthy value, else `b`. -/
def pyOrO (a b : Option String) : Option String :=
  if truthyO a then a else b

/-- Python `l[:limit]` with an `int` limit: non-negative limits take a prefix,
negative limits drop that many elements from the end (empty when it exceeds
the length), exactly as Python slicing does. -/
def pySlice {α : Type} (l : List α) (limit : Int) : List α :=
  if 0 ≤ limit then l.take limit.toNat else l.take (l.length - (-limit).toNat)

/-- The prefix processed by a loop of the form
`for i, x in enumerate(l): if i >= limit: break` with an `int` limit:
nothing when `limit ≤ 0`, else the first `limit` elements. -/
def takeLimit {α : Type} (l : List α) (limit : Int) : List α :=
  if limit ≤ 0 then [] else l.take limit.toNat

/-- Whether `pat` occurs contiguously inside `l`. -/
def containsSeq (pat : List Char) : List Char → Bool
  | [] => pat.isEmpty
  | c :: rest => pat.isPrefixOf (c :: rest) || containsSeq pat rest

/-- Substring containment, the semantics of a CSS `[attr*=value]` selector. -/
def strContains (h pat : String) : Bool :=
  containsSeq pat.toList h.toList

/-- Association-list lookup, modelling a read of the pickle file stored under
`key` in the cache directory (`query_cached_element` / `os.path.exists`). -/
def assocGet {α : Type} (m : List (String × α)) (key : String) : Option α :=
  match m.find? (fun kv => kv.1 = key) with
  | some kv => some kv.2
  | none => none

/-- `cache_element` from the source: refuses an empty key, returns early
WITHOUT writing when a file for the key already exists (the
`os.path.exists(obj_path): return True` branch), and otherwise stores the
value under the key. -/
def cache_element {α : Type} (key : String) (v : α) (m : List (String × α)) :
    Bool × List (String × α) :=
  if key = "" then (false, m)
  else if (assocGet m key).isSome then (true, m)
  else (true, (key, v) :: m)

/-- `EMail` pydantic model of the `LU` revision. -/
structure EMail where
  message_id : String
  subject : String
  sender : String
  date : String
  body : String
  timestamp : Int := 0
deriving DecidableEq

/-- `EMailThread` pydantic model of the `LU` revision. -/
structure EMailThread where
  thread_id : String
  mails : List EMail
deriving DecidableEq

/-- `SimpleEMail` pydantic model of the `LU` revision. -/
structure SimpleEMail where
  thread_id : String
  subject : String
  sender : String
  date : String
  snippet : String
  has_attachment : Bool
  timestamp : Int := 0
deriving DecidableEq

/-- The on-disk cache directory, split by the disjoint key prefixes the source
uses (`linkedin-thread-element-`, `mail-message-`, `mail-thread-`,
`direct-url-`); each component is an association list from the full key to the
pickled value of that kind. -/
structure Store where
  threadElements : List (String × String) := []
  mailMessages : List (String × EMail) := []
  mailThreads : List (String × EMailThread) := []
  directUrls : List (String × String) := []
deriving DecidableEq

/-- The empty cache directory (also the state after `sign_out` unlinks every
cache file). -/
def Store.empty : Store := {}

/-- The pydantic `ResponseMessage` model: `{result, error, success}`. -/
structure ResponseMessage (α : Type) where
  result : Option α := none
  error : Option String := none
  success : Bool := true
deriving DecidableEq

/-- The `refine_status` model validator (`mode="after"`): if `error` is not
null, force `success := False`; otherwise leave the fields as constructed. -/
def refine_status {α : Type} (m : ResponseMessage α) : ResponseMessage α :=
  if m.error.isSome then { m with success := false } else m

/-- A `response_model(result=r)` construction site (defaults
`error=None, success=True`), as validated by `refine_status`. -/
def ResponseMessage.ok {α : Type} (r : α) : ResponseMessage α :=
  refine_status { result := some r, error := none, success := true }

/-- A `response_model(error=e, success=False)` construction site, as validated
by `refine_status`. -/
def ResponseMessage.fail {α : Type} (e : String) : ResponseMessage α :=
  refine_status { result := none, error := some e, success := false }

/-- Re-wrapping an envelope's payload (used where `execute_toolcall` passes a
sub-call's envelope through to its own caller unchanged). -/
def ResponseMessage.map {α β : Type} (f : α → β) (m : ResponseMessage α) :
    ResponseMessage β :=
  { result := m.result.map f, error := m.error, success := m.success }

/-- The envelope invariant claimed by the spec: `success` is strictly
`error is null`. -/
def envOK {α : Type} (m : ResponseMessage α) : Prop :=
  m.success = m.error.isNone

/-- The exceptions that can escape a tool-call coroutine: the distinguished
`UnauthorizedAccess` signal, or an ordinary Python exception with its
message. -/
inductive Exc where
  | unauthorized
  | generic (msg : String)
deriving DecidableEq

/-- Envelope invariant lifted over an escaping exception and a cache store. -/
def exOK {α : Type} : Except Exc (ResponseMessage α × Store) → Prop
  | .ok (m, _) => envOK m
  | .error _ => True

/-- A conversation-card element of the messaging list DOM, with the attributes
and inner elements the source inspects.  `evalTexts` maps a field selector to
the innerText that `eval_on_selector` would produce for it; a missing entry
models the selector matching no element (so `eval_on_selector` raises). -/
structure Card where
  tag : String := "div"
  classes : List String := []
  dataTestId : Option String := none
  dataConversationId : Option String := none
  dataThreadId : Option String := none
  dataTestConversationId : Option String := none
  threadLinkHref : Option String := none
  evalTexts : List (String × String) := []
  hasAttachmentIcon : Bool := false
  isVisible : Bool := true
  outerHTML : String := ""
deriving DecidableEq

/-- `eval_on_selector(sel, "el => el.innerText")` against a card: `none`
models the raised exception when the selector matches nothing. -/
def lookupText (c : Card) (sel : String) : Option String :=
  assocGet c.evalTexts sel

/-- The elements a tool-call operation clicks, in order. -/
inductive Click where
  | card (c : Card)
  | searchBox
deriving DecidableEq

/-- The dict produced by `get_login_status` in `controllers.py`. -/
structure LoginStatus where
  is_logged_in : Bool := false
  profile_name : Option String := none
  profile_url : Option String := none
  error : Option String := none
deriving DecidableEq

namespace App

/-- One element of `data.elements` returned by the scripted
`voyager/api/messaging/conversations` fetch; `none` models a missing key (so
`dict.get` falls back to its default). -/
structure ApiConv where
  entityUrn : Option String := none
  participantName : Option String := none
  previewText : Option String := none
  lastActivityAt : Option String := none
deriving DecidableEq

/-- `LinkedInMessage` pydantic model.  `conversation_id = none` models the
branch where the source substitutes a fresh `str(uuid.uuid4())` (a
nondeterministic value abstracted here as absence of a scraped id). -/
structure LinkedInMessage where
  conversation_id : Option String
  participant_name : String
  message_preview : String
  timestamp : String
  has_attachment : Bool := false
deriving DecidableEq

/-- One message event returned by the scripted
`voyager/api/messaging/conversations/{id}/events` fetch, after the in-page
script has shaped it; `hasContent` is the
`eventContent && (attributedBody || text)` filter condition. -/
structure ApiEvent where
  hasContent : Bool := true
  sender : String := "Unknown"
  text : String := ""
  createdAt : String := ""
deriving DecidableEq

/-- A message dict produced by `read_direct_messages`
(`{sender, text, timestamp}`). -/
structure ScrapedMsg where
  sender : String
  text : String
  timestamp : String
deriving DecidableEq

/-- The browser-page world state read by the `src/app` revision.  Each field
records the outcome the corresponding page query/wait would produce.
`appState` holds the client-side application-state object that §4.3 of the
spec names as fallback (b); it is part of the world, and the reader can check
that no `App` definition below ever reads it. -/
structure Page where
  cards : List Card := []
  reloadCards : List Card := []
  csrfToken : Option String := none
  apiConversations : Option (List ApiConv) := none
  appState : Option (List ApiConv) := none
  hasSearchBox : Bool := false
  searchCards : List Card := []
  messageContainerAppears : Bool := true
  apiEvents : Option (List ApiEvent) := none
  msgBodies : List String := []
  msgSenders : List String := []
  msgTimestamps : List String := []
  authorized : Bool := true
  loginStatus : LoginStatus := {}
  loginStatusExc : Option String := none

/-- Denotations of the five card selectors tried in order by
`get_current_conversations` (lines 123-129):
`div[data-test-id="messaging-thread"]`, `.msg-conversation-card__message`,
`div.msg-conversation-listitem`, `.msg-conversation-card`,
`.msg-overlay-list-bubble__convo-item`. -/
def cardSelectors : List (Card → Bool) :=
  [ fun c => c.tag = "div" && c.dataTestId = some "messaging-thread"
  , fun c => c.classes.contains "msg-conversation-card__message"
  , fun c => c.tag = "div" && c.classes.contains "msg-conversation-listitem"
  , fun c => c.classes.contains "msg-conversation-card"
  , fun c => c.classes.contains "msg-overlay-list-bubble__convo-item" ]

/-- The four card selectors retried after the reload (lines 189-194): same
chain minus `.msg-overlay-list-bubble__convo-item`. -/
def reloadCardSelectors : List (Card → Bool) :=
  [ fun c => c.tag = "div" && c.dataTestId = some "messaging-thread"
  , fun c => c.classes.contains "msg-conversation-card__message"
  , fun c => c.tag = "div" && c.classes.contains "msg-conversation-listitem"
  , fun c => c.classes.contains "msg-conversation-card" ]

/-- `query_selector_all` over a selector chain with
`if conversations: break`: the matches of the first selector that matches at
least one element. -/
def firstNonEmptyFilter (cards : List Card) : List (Card → Bool) → List Card
  | [] => []
  | s :: rest =>
    let r := cards.filter s
    if r.isEmpty then firstNonEmptyFilter cards rest else r

/-- The field-resolution loop used for participant name and message preview
(lines 234-261): try each candidate selector in order; a raised
`eval_on_selector` (`none`) keeps the previous value, an empty innerText is
recorded but not accepted, and the first non-empty innerText is returned
immediately (`if participant: break`). -/
def resolve_loop (extract : String → Option String) (acc : Option String) :
    List String → Option String
  | [] => acc
  | c :: rest =>
    match extract c with
    | none => resolve_loop extract acc rest
    | some v => if v = "" then resolve_loop extract (some v) rest else some v

/-- The field resolver: `resolve_loop` started from Python `None`. -/
def resolve_field (cands : List String) (extract : String → Option String) :
    Option String :=
  resolve_loop extract none cands

/-- The timestamp loop (lines 264-274) differs: it breaks after the FIRST
successful `eval_on_selector`, substituting `"Recent"` for a falsy value
(`timestamp = ... or "Recent"; break`), and keeps the initial `"Recent"` when
every candidate raises. -/
def resolve_first : List String → (String → Option String) → String
  | [], _ => "Recent"
  | c :: rest, extract =>
    match extract c with
    | none => resolve_first rest extract
    | some v => if v = "" then "Recent" else v

/-- Participant-name candidate selectors (lines 235-240). -/
def participantSelectors : List String :=
  [ "[data-test-id=\"thread-participant-name\"]"
  , ".msg-conversation-card__participant-names"
  , ".msg-conversation-listitem__participant-names"
  , ".msg-overlay-bubble-header__title" ]

/-- Message-preview candidate selectors (lines 250-255). -/
def previewSelectors : List String :=
  [ "[data-test-id=\"thread-preview-text\"]"
  , ".msg-conversation-card__message-snippet"
  , ".msg-conversation-listitem__message-snippet"
  , ".msg-overlay-list-bubble__message-snippet" ]

/-- Timestamp candidate selectors (lines 265-269). -/
def timestampSelectors : List String :=
  [ "[data-test-id=\"thread-timestamp\"]"
  , ".msg-conversation-card__timestamp"
  , ".msg-conversation-listitem__timestamp" ]

/-- `href.split('/thread/')[-1].split('?')[0]`. -/
def parseThreadId (href : String) : String :=
  (((href.splitOn "/thread/").getLastD href).splitOn "?").headD ""

/-- Conversation-id extraction from a card's thread link (Method 2,
lines 224-231): parse the id out of the href of an
`a[href*="/messaging/thread/"]` child, when one exists. -/
def hrefId (c : Card) : Option String :=
  match c.threadLinkHref with
  | some href => some (parseThreadId href)
  | none => none

/-- Per-card record construction (lines 207-286 loop body): attribute id
chain `data-conversation-id or data-thread-id or data-test-conversation-id`,
href fallback, field resolvers, and the `if participant or preview:` guard
that silently SKIPS a card yielding neither. -/
def processCard (c : Card) : Option LinkedInMessage :=
  let attrId := pyOrO (pyOrO c.dataConversationId c.dataThreadId)
    c.dataTestConversationId
  let convId := if truthyO attrId then attrId else hrefId c
  let participant := resolve_field participantSelectors (lookupText c)
  let preview := resolve_field previewSelectors (lookupText c)
  let timestamp := resolve_first timestampSelectors (lookupText c)
  if truthyO participant || truthyO preview then
    some { conversation_id := if truthyO convId then convId else none
         , participant_name := pyOr participant "Unknown Contact"
         , message_preview := pyOr preview ""
         , timestamp := timestamp
         , has_attachment := c.hasAttachmentIcon }
  else none

/-- The enumeration loop: `for i, conv in enumerate(conversations): if i >=
limit: break`, appending only productive cards. -/
def processCards (cards : List Card) (limit : Int) : List LinkedInMessage :=
  (takeLimit cards limit).filterMap processCard

/-- Mapping one scripted-API conversation payload into the record shape
(lines 174-181), with the `dict.get` defaults of the source. -/
def apiToMessage (c : ApiConv) : LinkedInMessage :=
  { conversation_id := c.entityUrn
  , participant_name := c.participantName.getD "Unknown Contact"
  , message_preview := c.previewText.getD ""
  , timestamp := c.lastActivityAt.getD "Recent"
  , has_attachment := false }

/-- Python truthiness of the CSRF token read from `document.cookie`. -/
def csrfTruthy : Option String → Bool
  | none => false
  | some t => t ≠ ""

/-- The scripted-API fallback (lines 138-184): only attempted with a truthy
`JSESSIONID` token; returns records for `conversations_data[:limit]` when the
fetch produced a truthy (non-null, non-empty) `data.elements`, else signals
failure so the caller falls through to the reload. -/
def apiRecords (p : Page) (limit : Int) : Option (List LinkedInMessage) :=
  if csrfTruthy p.csrfToken then
    match p.apiConversations with
    | some data =>
      if data.isEmpty then none
      else some ((pySlice data limit).map apiToMessage)
    | none => none
  else none

/-- `get_current_conversations` (lines 91-293).  The initial navigation and
bounded waits (lines 102-119) only establish which DOM the queries read and
are absorbed into `p.cards`; the whole-body `except` (line 290) is the only
error return and is unreachable for the modelled total page operations. -/
def get_current_conversations (p : Page) (limit : Int) :
    ResponseMessage (List LinkedInMessage) :=
  let conversations := firstNonEmptyFilter p.cards cardSelectors
  if conversations.isEmpty then
    match apiRecords p limit with
    | some recs => ResponseMessage.ok recs
    | none =>
      let convs2 := firstNonEmptyFilter p.reloadCards reloadCardSelectors
      if convs2.isEmpty then ResponseMessage.ok []
      else ResponseMessage.ok (processCards convs2 limit)
  else ResponseMessage.ok (processCards conversations limit)

/-- Modelled from the spec: §4.3's fallback chain for zero-card DOM
enumeration — (a) the scripted same-origin API call authenticated via the
cookie token, (b) the client-side application-state object, (c) one
reload-and-retry of DOM scraping — first non-empty result wins.  Fallback (b)
has no counterpart anywhere in the source; this definition exists only to
state claim C5 and compare it with `get_current_conversations`. -/
def specFallbackChain (p : Page) (limit : Int) : List LinkedInMessage :=
  let domCards := firstNonEmptyFilter p.cards cardSelectors
  if ¬domCards.isEmpty then processCards domCards limit
  else
    let api := (apiRecords p limit).getD []
    if ¬api.isEmpty then api
    else
      let st := match p.appState with
        | some convs => (pySlice convs limit).map apiToMessage
        | none => []
      if ¬st.isEmpty then st
      else processCards (firstNonEmptyFilter p.reloadCards reloadCardSelectors)
        limit

/-- `page.query_selector('[attr="id"]')`: first card in document order whose
given attribute equals the id. -/
def findByAttr (cards : List Card) (f : Card → Option String) (id : String) :
    Option Card :=
  cards.find? (fun c => f c = some id)

/-- `page.query_selector('a[href*="/messaging/thread/{id}"]')`: first card in
document order whose thread link href CONTAINS the pattern as a substring. -/
def findByHref (cards : List Card) (id : String) : Option Card :=
  cards.find? (fun c =>
    match c.threadLinkHref with
    | some h => strContains h ("/messaging/thread/" ++ id)
    | none => false)

/-- The four-selector lookup loop of `ensure_thread_opened`
(lines 472-480 and 493-501). -/
def lookupConversation (cards : List Card) (id : String) : Option Card :=
  (((findByAttr cards (fun c => c.dataTestConversationId) id).orElse
    (fun _ => findByAttr cards (fun c => c.dataConversationId) id)).orElse
    (fun _ => findByAttr cards (fun c => c.dataThreadId) id)).orElse
    (fun _ => findByHref cards id)

/-- `ensure_thread_opened` (lines 444-514): re-check the three id attributes
(`or`-chain, lines 449-451); then the four-selector loop (which adds the
href-substring selector); then, if a search box exists, click it, type the id
and re-run the loop against the post-search DOM; click whatever was found and
wait for the message container (a failed wait returns `False` after the
click). Returns the success flag together with the clicks performed. -/
def ensure_thread_opened (p : Page) (threadId : String) : Bool × List Click :=
  let direct := ((findByAttr p.cards (fun c => c.dataTestConversationId)
    threadId).orElse
    (fun _ => findByAttr p.cards (fun c => c.dataConversationId)
      threadId)).orElse
    (fun _ => findByAttr p.cards (fun c => c.dataThreadId) threadId)
  match direct with
  | some c => (p.messageContainerAppears, [Click.card c])
  | none =>
    match lookupConversation p.cards threadId with
    | some c => (p.messageContainerAppears, [Click.card c])
    | none =>
      if p.hasSearchBox then
        match lookupConversation p.searchCards threadId with
        | some c => (p.messageContainerAppears, [Click.searchBox, Click.card c])
        | none => (false, [Click.searchBox])
      else (false, [])

/-- The in-page REST fetch of `read_direct_messages` (lines 535-578): `none`
models a null return (no token, non-ok response or a thrown fetch); a list is
the filtered and mapped `data.elements`. -/
def apiMessages (p : Page) : Option (List ScrapedMsg) :=
  match p.apiEvents with
  | some evs =>
    some ((evs.filter (fun e => e.hasContent)).map
      (fun e => { sender := e.sender, text := e.text, timestamp := e.createdAt }))
  | none => none

/-- The UI-scraping fallback of `read_direct_messages` (lines 582-604): for
each message body element, take the sender and timestamp elements at the SAME
index, substituting the literal placeholder "Unknown" when that index is past
the end of the corresponding element list. -/
def scrapeMessages (p : Page) : List ScrapedMsg :=
  (List.range p.msgBodies.length).map (fun i =>
    { sender := p.msgSenders.getD i "Unknown"
    , text := p.msgBodies.getD i ""
    , timestamp := p.msgTimestamps.getD i "Unknown" })

/-- `read_direct_messages` (lines 516-617): open the thread, try the scripted
API, then the UI scrape, and fail only when both produced nothing (`if not
messages` treats null and the empty list alike). -/
def read_direct_messages (p : Page) (conversationId : String) :
    ResponseMessage (List ScrapedMsg) :=
  if ¬(ensure_thread_opened p conversationId).1 then
    ResponseMessage.fail "Failed to open conversation"
  else
    let fromApi := (apiMessages p).getD []
    let messages := if fromApi.isEmpty then scrapeMessages p else fromApi
    if messages.isEmpty then ResponseMessage.fail "Failed to fetch messages"
    else ResponseMessage.ok messages

/-- `check_login_status` (lines 637-645): wrap `get_login_status` and turn any
exception into an error envelope. -/
def check_login_status (p : Page) : ResponseMessage LoginStatus :=
  match p.loginStatusExc with
  | some e => ResponseMessage.fail e
  | none => ResponseMessage.ok p.loginStatus

/-- `sign_out` (lines 619-635): when not authorized, return success WITHOUT
touching the cache; when authorized, unlink every cache file and clear the
lru cache, then return success. It never raises `UnauthorizedAccess`. -/
def sign_out (p : Page) (store : Store) : ResponseMessage Bool × Store :=
  if ¬p.authorized then (ResponseMessage.ok true, store)
  else (ResponseMessage.ok true, Store.empty)

/-- The names of the four tools declared in
`get_context_aware_available_toolcalls` (lines 647-710), in declaration
order. -/
def declaredToolcalls : List String :=
  ["list_conversations", "extract_linkedin_info", "sign_out",
   "check_login_status"]

/-- `get_context_aware_available_toolcalls` (lines 712-719), reduced to the
tool names: authorized sessions get every declared tool except `sign_out`,
unauthorized sessions only those named `sign_out` or `check_login_status`. -/
def get_context_aware_available_toolcalls (isAuthorized : Bool) :
    List String :=
  if isAuthorized then declaredToolcalls.filter (fun n => n ≠ "sign_out")
  else declaredToolcalls.filter
    (fun n => n = "sign_out" || n = "check_login_status")

/-- The conversation summary dicts built by `extract_linkedin_info`
(lines 909-918). -/
structure InfoConv where
  id : Option String
  participant : String
  last_message : String
  timestamp : String
deriving DecidableEq

/-- The AI-friendly payload of `extract_linkedin_info`. -/
structure InfoPayload where
  profile : LoginStatus
  conversations : List InfoConv
deriving DecidableEq

/-- `extract_linkedin_info` (lines 888-925): require a successful
`check_login_status` reporting logged-in, require a successful enumeration
(default limit 30), then reshape. -/
def extract_linkedin_info (p : Page) : ResponseMessage InfoPayload :=
  let ls := check_login_status p
  let loggedIn := match ls.result with
    | some st => st.is_logged_in
    | none => false
  if !ls.success || !loggedIn then
    ResponseMessage.fail "Not logged in to LinkedIn"
  else
    let convs := get_current_conversations p 30
    if ¬convs.success then ResponseMessage.fail "Failed to get conversations"
    else
      ResponseMessage.ok
        { profile := (ls.result.getD {})
        , conversations := (convs.result.getD []).map (fun c =>
            { id := c.conversation_id
            , participant := c.participant_name
            , last_message := c.message_preview
            , timestamp := c.timestamp }) }

/-- The payload union of the `src/app` tool-call surface. -/
inductive AppRes where
  | convs (xs : List LinkedInMessage)
  | status (s : LoginStatus)
  | flag (b : Bool)
  | info (x : InfoPayload)
deriving DecidableEq

/-- `execute_toolcall` (lines 721-738): a plain dispatch.  None of the
dispatched operations calls `ensure_authorized`, so this revision's
`execute_toolcall` can never raise `UnauthorizedAccess`. -/
def execute_toolcall (p : Page) (store : Store) (toolName : String)
    (limit : Int) : ResponseMessage AppRes × Store :=
  if toolName = "check_login_status" then
    ((check_login_status p).map AppRes.status, store)
  else if toolName = "list_conversations" then
    ((get_current_conversations p limit).map AppRes.convs, store)
  else if toolName = "sign_out" then
    let (m, st) := sign_out p store
    (m.map AppRes.flag, st)
  else if toolName = "extract_linkedin_info" then
    ((extract_linkedin_info p).map AppRes.info, store)
  else (ResponseMessage.fail ("Unknown tool call: " ++ toolName), store)

end App

namespace LU

/-- The browser-page world state read by the `src/linkedln-use` revision.
Each field records the outcome the corresponding page query or bounded wait
would produce; `fetchMail` is the outcome of the httpx fetch-and-parse in
`extract_mail_message_detail` for a given message id (`none` models a non-200
response or a missing `raw_message_text` element). -/
structure Page where
  urlIsLinkedIn : Bool := true
  authorized : Bool := true
  containerAppears : Bool := true
  listitemAppears : Bool := true
  cards : List Card := []
  hasContainer : Bool := true
  hasContainerAfterGoto : Bool := true
  cardsAfterGoto : List Card := []
  snippetBodyAppears : Bool := true
  mailMessageIds : List String := []
  fetchMail : String → Option EMail := fun _ => none
  urlLastSegment : String := ""
  loginStatus : LoginStatus := {}
  loginStatusExc : Option String := none
  hasForwardBtn : Bool := true
  hasReplyBtn : Bool := true
  hasComposeButton : Bool := true
  hasComposeRegions : Bool := true
  hasRecipientInput : Bool := true
  composeFieldsPresent : Bool := true
  sendButtonPresent : Bool := true
  composeId : String := "1"

/-- `page.query_selector('.msg-conversation-listitem[data-conversation-id=
"{id}"]')`: first element carrying the list-item class and the exact
conversation id. -/
def luFindCard (cards : List Card) (id : String) : Option Card :=
  cards.find? (fun c =>
    c.classes.contains "msg-conversation-listitem" &&
      c.dataConversationId = some id)

/-- The message raised out of the un-guarded
`wait_for_selector('.msg-conversation-card__message-snippet-body')` when the
snippet body never appears (default 30s timeout, no `except`). -/
def snippetTimeoutMsg : String :=
  "Timeout 30000ms exceeded waiting for selector"

/-- `ensure_thread_opened` (LU revision, lines 331-368): look the id up in the
current view; else require a cached outer-HTML entry for the id, re-resolve
the container (one goto retry), and re-run the same id query (against the
post-goto DOM when a goto happened).  Every failure returns `False`; the only
raises are the un-guarded snippet-body waits after a click. -/
def ensure_thread_opened (p : Page) (store : Store) (threadId : String) :
    Except Exc (Bool × List Click) :=
  match luFindCard p.cards threadId with
  | some c =>
    if p.snippetBodyAppears then .ok (true, [Click.card c])
    else .error (.generic snippetTimeoutMsg)
  | none =>
    match assocGet store.threadElements
      ("linkedin-thread-element-" ++ threadId) with
    | none => .ok (false, [])
    | some _ =>
      let (present, cards2) :=
        if p.hasContainer then (true, p.cards)
        else (p.hasContainerAfterGoto, p.cardsAfterGoto)
      if !present then .ok (false, [])
      else
        match luFindCard cards2 threadId with
        | none => .ok (false, [])
        | some c =>
          if p.snippetBodyAppears then .ok (true, [Click.card c])
          else .error (.generic snippetTimeoutMsg)

/-- `data_message_id.strip('#')`. -/
def stripHash (s : String) : String :=
  String.mk (((s.toList.dropWhile (fun c => c = '#')).reverse.dropWhile
    (fun c => c = '#')).reverse)

/-- `extract_mail_message_detail` (lines 261-329): serve the cached pickle for
the id when one exists; otherwise fetch and parse, and cache a successful
result (the GM_ID_KEY read and httpx call are summarised by `fetchMail`). -/
def extract_mail_message_detail (p : Page) (store : Store) (id : String) :
    Option EMail × Store :=
  match assocGet store.mailMessages ("mail-message-" ++ id) with
  | some m => (some m, store)
  | none =>
    match p.fetchMail id with
    | none => (none, store)
    | some m =>
      (some m,
       { store with
           mailMessages :=
             (cache_element ("mail-message-" ++ id) m store.mailMessages).2 })

/-- The `for element in mail_elements` loop of `enter_thread` (lines 390-401):
skip falsy ids, strip `#`, collect each successfully extracted mail, threading
the cache through. -/
def collectMails (p : Page) : List String → Store → List EMail × Store
  | [], store => ([], store)
  | id :: rest, store =>
    if id = "" then collectMails p rest store
    else
      let (mail, store') := extract_mail_message_detail p store (stripHash id)
      let (restMails, store'') := collectMails p rest store'
      match mail with
      | some m => (m :: restMails, store'')
      | none => (restMails, store'')

/-- `enter_thread` (lines 371-412): authorization raise; empty-id error
envelope; `ensure_thread_opened` whose Boolean result is IGNORED (only its
exceptions propagate); then — before any extraction — serve the cached
`mail-thread-{id}` pickle when one exists; otherwise extract every
`div[data-message-id]`, cache the direct URL and the assembled thread, and
return it. -/
def enter_thread (p : Page) (store : Store) (threadId : String) :
    Except Exc (ResponseMessage EMailThread × Store) :=
  if !p.authorized then .error .unauthorized
  else if threadId = "" then
    .ok (ResponseMessage.fail "Thread ID cannot be empty or n/a.", store)
  else
    match ensure_thread_opened p store threadId with
    | .error e => .error e
    | .ok _ =>
      match assocGet store.mailThreads ("mail-thread-" ++ threadId) with
      | some t => .ok (ResponseMessage.ok t, store)
      | none =>
        let (mails, store') := collectMails p p.mailMessageIds store
        let store'' :=
          { store' with
              directUrls :=
                (cache_element ("direct-url-" ++ threadId)
                  ("https://www.linkedin.com/messaging/" ++ p.urlLastSegment)
                  store'.directUrls).2 }
        let t : EMailThread := { thread_id := threadId, mails := mails }
        let store3 :=
          { store'' with
              mailThreads :=
                (cache_element ("mail-thread-" ++ threadId) t
                  store''.mailThreads).2 }
        .ok (ResponseMessage.ok t, store3)

/-- The per-thread body of the `get_current_threads` enumeration loop
(lines 147-177), over the enumerated prefix admitted by the limit: an
invisibility skip, the three `eval_on_selector` reads any of whose raises
skips the card, the outer-HTML caching attempted only for a truthy
`data-conversation-id`, and the record construction with the enumeration
index as fallback id. -/
def luProcess (visibility : Bool) :
    List (Nat × Card) → Store → List SimpleEMail × Store
  | [], store => ([], store)
  | (i, c) :: rest, store =>
    if visibility && !c.isVisible then luProcess visibility rest store
    else
      match lookupText c ".msg-conversation-card__participant-names",
            lookupText c ".msg-conversation-card__message-snippet",
            lookupText c ".msg-conversation-card__time-stamp" with
      | some participant, some snippet, some timestamp =>
        let store' :=
          match c.dataConversationId with
          | some tid =>
            if tid ≠ "" then
              { store with
                  threadElements :=
                    (cache_element ("linkedin-thread-element-" ++ tid)
                      c.outerHTML store.threadElements).2 }
            else store
          | none => store
        let (restList, store'') := luProcess visibility rest store'
        ({ thread_id := pyOr c.dataConversationId (toString i)
         , subject := "Conversation with " ++ participant
         , sender := pyOrS participant "Unknown Contact"
         , date := pyOrS timestamp "Unknown Date"
         , snippet := pyOrS snippet ""
         , has_attachment := false } :: restList, store'')
      | _, _, _ => luProcess visibility rest store

/-- `get_current_threads` (lines 115-179): silent short-circuit off
LinkedIn, the authorization raise, the two bounded container waits whose
timeout returns an EMPTY success envelope (an empty inbox is not an error),
then the enumeration loop.  The `while threads == []` retry re-runs the same
query and is absorbed into `p.cards`. -/
def get_current_threads (p : Page) (store : Store) (silent : Bool)
    (limit : Int) (visibility : Bool) :
    Except Exc (ResponseMessage (List SimpleEMail) × Store) :=
  if !p.urlIsLinkedIn && silent then .ok (ResponseMessage.ok [], store)
  else if !p.authorized then .error .unauthorized
  else if !(p.containerAppears && p.listitemAppears) then
    .ok (ResponseMessage.ok [], store)
  else
    let threads := p.cards.filter
      (fun c => c.classes.contains "msg-conversation-listitem")
    let (results, store') := luProcess visibility (takeLimit threads.enum limit)
      store
    .ok (ResponseMessage.ok results, store')

/-- `list_threads` (lines 229-259): authorization raise, navigation and the
optional search (which only select the DOM state the enumeration reads), then
`get_current_threads(silent=False, limit=limit)`. -/
def list_threads (p : Page) (store : Store) (limit : Int) :
    Except Exc (ResponseMessage (List SimpleEMail) × Store) :=
  if !p.authorized then .error .unauthorized
  else get_current_threads p store false limit false

/-- `forward_thread` (lines 447-501): authorization raise, empty-id and
not-opened error envelopes, missing-forward-button and no-compose-region
error envelopes, and the un-guarded `.fill`/`.click` attribute errors on
missing compose inputs or send button. -/
def forward_thread (p : Page) (store : Store) (threadId : String) :
    Except Exc (ResponseMessage String × Store) :=
  if !p.authorized then .error .unauthorized
  else if threadId = "" then
    .ok (ResponseMessage.fail "Thread ID cannot be empty or n/a.", store)
  else
    match ensure_thread_opened p store threadId with
    | .error e => .error e
    | .ok (opened, _) =>
      if !opened then
        .ok (ResponseMessage.fail "Thread not found or not opened.", store)
      else if !p.hasForwardBtn then
        .ok (ResponseMessage.fail
          "Failed to find the forward button in the thread.", store)
      else if !p.hasComposeRegions then
        .ok (ResponseMessage.fail "No compose regions found.", store)
      else if !p.composeFieldsPresent then
        .error (.generic "NoneType object has no attribute fill")
      else if !p.sendButtonPresent then
        .error (.generic "NoneType object has no attribute click")
      else .ok (ResponseMessage.ok "Email forwarded successfully.", store)

/-- `reply_to_thread` (lines 504-554): same skeleton as `forward_thread`
(including the reused forward-button error text), replying instead. -/
def reply_to_thread (p : Page) (store : Store) (threadId : String) :
    Except Exc (ResponseMessage String × Store) :=
  if !p.authorized then .error .unauthorized
  else if threadId = "" then
    .ok (ResponseMessage.fail "Thread ID cannot be empty or n/a.", store)
  else
    match ensure_thread_opened p store threadId with
    | .error e => .error e
    | .ok (opened, _) =>
      if !opened then
        .ok (ResponseMessage.fail "Thread not found or not opened.", store)
      else if !p.hasReplyBtn then
        .ok (ResponseMessage.fail
          "Failed to find the forward button in the thread.", store)
      else if !p.hasComposeRegions then
        .ok (ResponseMessage.fail "No compose regions found.", store)
      else if !p.composeFieldsPresent then
        .error (.generic "NoneType object has no attribute fill")
      else if !p.sendButtonPresent then
        .error (.generic "NoneType object has no attribute click")
      else .ok (ResponseMessage.ok "Replied.", store)

/-- `compose_email` (lines 557-617): authorization raise, the un-guarded
compose-button click, the no-compose-region and missing-recipient error
envelopes, the un-guarded subject/body fills and send click. -/
def compose_email (p : Page) (store : Store) :
    Except Exc (ResponseMessage String × Store) :=
  if !p.authorized then .error .unauthorized
  else if !p.hasComposeButton then
    .error (.generic "NoneType object has no attribute click")
  else if !p.hasComposeRegions then
    .ok (ResponseMessage.fail "No compose regions found.", store)
  else if !p.hasRecipientInput then
    .ok (ResponseMessage.fail
      ("Failed to find the recipient input field. User should fill this " ++
       "value and send it manually"), store)
  else if !p.composeFieldsPresent then
    .error (.generic "NoneType object has no attribute fill")
  else if !p.sendButtonPresent then
    .error (.generic "NoneType object has no attribute click")
  else
    .ok (ResponseMessage.ok
      ("Email sent (Compose ID: " ++ p.composeId ++ ")"), store)

/-- The message of the `TypeError` raised by `current_url = await page.url`
(line 719): `page.url` is a plain string property, so awaiting it always
raises once the labelling loop finishes. -/
def awaitUrlMsg : String :=
  "object str cannot be used in await expression"

/-- The labelling loop of `label_threads` (lines 698-716): only the
`ensure_thread_opened` raises escape it (everything after that call sits
inside the per-thread `try`). -/
def labelLoop (p : Page) (store : Store) : List String → Except Exc Unit
  | [] => .ok ()
  | id :: rest =>
    match ensure_thread_opened p store id with
    | .error e => .error e
    | .ok _ => labelLoop p store rest

/-- `label_threads` (lines 681-744): no authorization check; parse the
comma-separated ids into a set (deduplicated; CPython's set order is
abstracted by `dedup`); run the labelling loop; then ALWAYS raise the
`await page.url` TypeError before the success message can be built, so the
function never returns normally. -/
def label_threads (p : Page) (store : Store) (threadIds : String) :
    Except Exc (ResponseMessage String × Store) :=
  let ids := ((threadIds.splitOn ",").map String.trim).filter
    (fun s => s ≠ "") |>.dedup
  match labelLoop p store ids with
  | .error e => .error e
  | .ok _ => .error (.generic awaitUrlMsg)

/-- `check_login_status` (lines 746-754), identical to the `App` revision. -/
def check_login_status (p : Page) : ResponseMessage LoginStatus :=
  match p.loginStatusExc with
  | some e => ResponseMessage.fail e
  | none => ResponseMessage.ok p.loginStatus

/-- `sign_out` (lines 620-636): an unauthorized session gets a success
envelope immediately (no raise, no cache clearing); an authorized one has
every cache file unlinked before the success envelope. -/
def sign_out (p : Page) (store : Store) : ResponseMessage Bool × Store :=
  if !p.authorized then (ResponseMessage.ok true, store)
  else (ResponseMessage.ok true, Store.empty)

/-- The names of the eight tools declared in
`get_context_aware_available_toolcalls` (lines 756-942), in declaration
order. -/
def declaredToolcalls : List String :=
  ["list_threads", "enter_thread", "forward_thread", "reply_to_thread",
   "compose_email", "label_threads", "sign_out", "check_login_status"]

/-- `get_context_aware_available_toolcalls` (lines 944-951), reduced to tool
names: authorized sessions get every declared tool except `sign_out`,
unauthorized sessions only `sign_out` and `check_login_status`. -/
def get_context_aware_available_toolcalls (isAuthorized : Bool) :
    List String :=
  if isAuthorized then declaredToolcalls.filter (fun n => n ≠ "sign_out")
  else declaredToolcalls.filter
    (fun n => n = "sign_out" || n = "check_login_status")

/-- The payload union of the `LU` tool-call surface. -/
inductive ToolResult where
  | threads (xs : List SimpleEMail)
  | thread (t : EMailThread)
  | status (s : LoginStatus)
  | flag (b : Bool)
  | text (s : String)
deriving DecidableEq

/-- The argument object a dispatched tool call receives (`**args`). -/
structure Args where
  threadId : String := ""
  threadIds : String := ""
  recipient : String := ""
  message : String := ""
  subject : String := ""
  body : String := ""
  limit : Int := 30

/-- `execute_toolcall` (lines 953-984): `check_login_status`, `list_threads`,
`enter_thread` and `sign_out` are dispatched OUTSIDE any handler (their
exceptions, `UnauthorizedAccess` included, escape to the caller); the
remaining four tools run inside a `try` whose handler RE-RAISES
`UnauthorizedAccess` and converts any other exception into an error
envelope; anything else is an unknown-tool error envelope. -/
def execute_toolcall (p : Page) (store : Store) (toolName : String)
    (args : Args) : Except Exc (ResponseMessage ToolResult × Store) :=
  if toolName = "check_login_status" then
    .ok ((check_login_status p).map ToolResult.status, store)
  else if toolName = "list_threads" then
    match list_threads p store args.limit with
    | .error e => .error e
    | .ok (m, st) => .ok (m.map ToolResult.threads, st)
  else if toolName = "enter_thread" then
    match enter_thread p store args.threadId with
    | .error e => .error e
    | .ok (m, st) => .ok (m.map ToolResult.thread, st)
  else if toolName = "sign_out" then
    let (m, st) := sign_out p store
    .ok (m.map ToolResult.flag, st)
  else
    let inner : Option (Except Exc (ResponseMessage String × Store)) :=
      if toolName = "forward_thread" then
        some (forward_thread p store args.threadId)
      else if toolName = "reply_to_thread" then
        some (reply_to_thread p store args.threadId)
      else if toolName = "compose_email" then some (compose_email p store)
      else if toolName = "label_threads" then
        some (label_threads p store args.threadIds)
      else none
    match inner with
    | some (.ok (m, st)) => .ok (m.map ToolResult.text, st)
    | some (.error Exc.unauthorized) => .error Exc.unauthorized
    | some (.error (Exc.generic _)) =>
      .ok (ResponseMessage.fail
        ("Action " ++ toolName ++ " failed, the user should do it manually."),
        store)
    | none => .ok (ResponseMessage.fail ("Unknown tool call: " ++ toolName),
        store)

end LU

/-! Concrete world states used by the counterexamples and witnesses below. -/

/-- A conversation card matching `.msg-conversation-card` whose inner field
selectors all match nothing: the `if participant or preview:` guard drops
it. -/
def cBlank : Card := { classes := ["msg-conversation-card"] }

/-- A productive conversation card with a participant name and a preview. -/
def cAlice : Card :=
  { classes := ["msg-conversation-card"]
  , dataConversationId := some "conv-1"
  , evalTexts :=
      [(".msg-conversation-card__participant-names", "Alice"),
       (".msg-conversation-card__message-snippet", "Hello")] }

/-- A messaging page showing two cards, one of which is unproductive. -/
def pC3 : App.Page := { cards := [cBlank, cAlice] }

/-- First scripted-API conversation payload. -/
def apiAnn : App.ApiConv :=
  { entityUrn := some "urn:1", participantName := some "Ann"
  , previewText := some "p1", lastActivityAt := some "1h" }

/-- Second scripted-API conversation payload. -/
def apiBen : App.ApiConv :=
  { entityUrn := some "urn:2", participantName := some "Ben"
  , previewText := some "p2", lastActivityAt := some "2h" }

/-- A page whose DOM scrape finds no cards but whose scripted API call
returns two conversations. -/
def pC4 : App.Page :=
  { csrfToken := some "tok", apiConversations := some [apiAnn, apiBen] }

/-- A conversation payload available only in client-side application
state. -/
def apiZara : App.ApiConv :=
  { entityUrn := some "urn:9", participantName := some "Zara"
  , previewText := some "hey", lastActivityAt := some "2d" }

/-- A page where the DOM scrape finds nothing, the scripted API call fails,
the reload also finds nothing, but the client-side application state holds a
conversation. -/
def pC5 : App.Page :=
  { csrfToken := some "tok", apiConversations := none
  , appState := some [apiZara] }

/-- A conversation card whose platform-assigned thread id is `567`. -/
def c567 : Card :=
  { classes := ["msg-conversation-card"]
  , dataConversationId := some "567"
  , threadLinkHref := some "https://www.linkedin.com/messaging/thread/567/" }

/-- A conversation card whose thread id is `alpha`. -/
def cAlpha : Card :=
  { classes := ["msg-conversation-card"]
  , dataConversationId := some "alpha"
  , threadLinkHref := some
      "https://www.linkedin.com/messaging/thread/alpha/" }

/-- A conversation card whose thread id is `beta`. -/
def cBeta : Card :=
  { classes := ["msg-conversation-card"]
  , dataConversationId := some "beta"
  , threadLinkHref := some "https://www.linkedin.com/messaging/thread/beta/" }

/-- A live conversation list of exactly three cards, none with id `5`. -/
def pC8 : App.Page := { cards := [c567, cAlpha, cBeta] }

/-- A card addressable by `data-test-conversation-id="T1"`. -/
def cT1 : Card :=
  { classes := ["msg-conversation-card"]
  , dataTestConversationId := some "T1" }

/-- An open thread whose scripted events API fails and whose scraped DOM has
one message body, one sender element, and NO timestamp elements. -/
def pC9 : App.Page :=
  { cards := [cT1], msgBodies := ["hi"], msgSenders := ["A"]
  , msgTimestamps := [] }

/-- The thread snapshot cached by a previous `enter_thread` call (empty
message list). -/
def oldThread : EMailThread := { thread_id := "T", mails := [] }

/-- The message currently present in the live thread. -/
def newMail : EMail :=
  { message_id := "m1", subject := "s", sender := "snd", date := "d"
  , body := "b" }

/-- A live page whose open thread contains exactly the message `m1`. -/
def pC6 : LU.Page :=
  { mailMessageIds := ["m1"]
  , fetchMail := fun id => if id = "m1" then some newMail else none
  , urlLastSegment := "x" }

/-- A cache that already holds a (stale) snapshot for thread `T`. -/
def storeC6 : Store := { mailThreads := [("mail-thread-T", oldThread)] }

/-- A session whose authorization check reports not-logged-in. -/
def pUnauth : LU.Page := { authorized := false }

/-- An extraction oracle under which exactly the candidate `S2` yields a
non-empty value. -/
def onlyS2 : String → Option String :=
  fun t => if t = "S2" then some "val" else none

/-- A conversation list item with id `T` for the LU revision. -/
def cardT : Card :=
  { classes := ["msg-conversation-listitem"], dataConversationId := some "T" }

/-- A page for exercising `execute_toolcall`'s generic-exception handler:
authorized, thread `T` present and openable, but the send button missing, so
the forward click raises an `AttributeError`. -/
def pSendless : LU.Page := { cards := [cardT], sendButtonPresent := false }

/-- A page whose snippet-body wait times out after the click, so
`ensure_thread_opened` raises an ordinary timeout error. -/
def pSnippetless : LU.Page := { cards := [cardT], snippetBodyAppears := false }

/-- A second productive conversation card. -/
def cBob : Card :=
  { classes := ["msg-conversation-card"]
  , dataConversationId := some "conv-2"
  , evalTexts :=
      [(".msg-conversation-card__participant-names", "Bob"),
       (".msg-conversation-card__message-snippet", "Hey")] }

/-- A messaging page with two productive cards. -/
def pTwoGood : App.Page := { cards := [cAlice, cBob] }

/-! Envelope helper lemmas. -/

theorem envOK_ok {α : Type} (r : α) : envOK (ResponseMessage.ok r) := by
  simp [envOK, ResponseMessage.ok, refine_status]

theorem envOK_fail {α : Type} (e : String) :
    envOK (ResponseMessage.fail (α := α) e) := by
  simp [envOK, ResponseMessage.fail, refine_status]

theorem envOK_map {α β : Type} (f : α → β) {m : ResponseMessage α}
    (h : envOK m) : envOK (m.map f) := h

theorem map_ok {α β : Type} (f : α → β) (r : α) :
    (ResponseMessage.ok r).map f = ResponseMessage.ok (f r) := by
  simp [ResponseMessage.ok, ResponseMessage.map, refine_status]

theorem map_fail {α β : Type} (f : α → β) (e : String) :
    (ResponseMessage.fail (α := α) e).map f = ResponseMessage.fail (α := β) e := by
  simp [ResponseMessage.fail, ResponseMessage.map, refine_status]

theorem ok_result {α : Type} (r : α) :
    (ResponseMessage.ok r).result = some r := by
  simp [ResponseMessage.ok, refine_status]

theorem ok_error {α : Type} (r : α) :
    (ResponseMessage.ok r).error = none := by
  simp [ResponseMessage.ok, refine_status]

theorem gcc_envOK (p : App.Page) (L : Int) :
    envOK (App.get_current_conversations p L) := by
  unfold App.get_current_conversations
  dsimp only
  repeat' split
  all_goals first | exact envOK_ok _ | exact envOK_fail _ | trivial

theorem rdm_envOK (p : App.Page) (id : String) :
    envOK (App.read_direct_messages p id) := by
  unfold App.read_direct_messages
  dsimp only
  repeat' split
  all_goals first | exact envOK_ok _ | exact envOK_fail _ | trivial

theorem app_cls_envOK (p : App.Page) : envOK (App.check_login_status p) := by
  unfold App.check_login_status
  repeat' split
  all_goals first | exact envOK_ok _ | exact envOK_fail _ | trivial

theorem app_signout_envOK (p : App.Page) (st : Store) :
    envOK (App.sign_out p st).1 := by
  unfold App.sign_out
  repeat' split
  all_goals first | exact envOK_ok _ | exact envOK_fail _ | trivial

theorem eli_envOK (p : App.Page) : envOK (App.extract_linkedin_info p) := by
  unfold App.extract_linkedin_info
  dsimp only
  repeat' split
  all_goals first | exact envOK_ok _ | exact envOK_fail _ | trivial

theorem app_exec_envOK (p : App.Page) (st : Store) (t : String) (L : Int) :
    envOK (App.execute_toolcall p st t L).1 := by
  unfold App.execute_toolcall
  split
  · exact envOK_map _ (app_cls_envOK p)
  · split
    · exact envOK_map _ (gcc_envOK p L)
    · split
      · exact envOK_map _ (app_signout_envOK p st)
      · split
        · exact envOK_map _ (eli_envOK p)
        · exact envOK_fail _

theorem gct_exOK (p : LU.Page) (st : Store) (s : Bool) (L : Int) (v : Bool) :
    exOK (LU.get_current_threads p st s L v) := by
  unfold LU.get_current_threads
  dsimp only
  repeat' split
  all_goals first | exact envOK_ok _ | exact envOK_fail _ | trivial

theorem lt_exOK (p : LU.Page) (st : Store) (L : Int) :
    exOK (LU.list_threads p st L) := by
  unfold LU.list_threads
  split
  · trivial
  · exact gct_exOK p st false L false

theorem enter_exOK (p : LU.Page) (st : Store) (id : String) :
    exOK (LU.enter_thread p st id) := by
  unfold LU.enter_thread
  dsimp only
  repeat' split
  all_goals first | exact envOK_ok _ | exact envOK_fail _ | trivial

theorem fwd_exOK (p : LU.Page) (st : Store) (id : String) :
    exOK (LU.forward_thread p st id) := by
  unfold LU.forward_thread
  repeat' split
  all_goals first | exact envOK_ok _ | exact envOK_fail _ | trivial

theorem reply_exOK (p : LU.Page) (st : Store) (id : String) :
    exOK (LU.reply_to_thread p st id) := by
  unfold LU.reply_to_thread
  repeat' split
  all_goals first | exact envOK_ok _ | exact envOK_fail _ | trivial

theorem compose_exOK (p : LU.Page) (st : Store) :
    exOK (LU.compose_email p st) := by
  unfold LU.compose_email
  repeat' split
  all_goals first | exact envOK_ok _ | exact envOK_fail _ | trivial

theorem label_exOK (p : LU.Page) (st : Store) (ids : String) :
    exOK (LU.label_threads p st ids) := by
  unfold LU.label_threads
  dsimp only
  repeat' split
  all_goals first | exact envOK_ok _ | exact envOK_fail _ | trivial

theorem lu_cls_envOK (p : LU.Page) : envOK (LU.check_login_status p) := by
  unfold LU.check_login_status
  repeat' split
  all_goals first | exact envOK_ok _ | exact envOK_fail _ | trivial

theorem lu_signout_envOK (p : LU.Page) (st : Store) :
    envOK (LU.sign_out p st).1 := by
  unfold LU.sign_out
  repeat' split
  all_goals first | exact envOK_ok _ | exact envOK_fail _ | trivial

theorem lu_exec_exOK (p : LU.Page) (st : Store) (t : String) (a : LU.Args) :
    exOK (LU.execute_toolcall p st t a) := by
  unfold LU.execute_toolcall
  dsimp only
  split
  · exact envOK_map _ (lu_cls_envOK p)
  · split
    · have h := lt_exOK p st a.limit
      rcases heq : LU.list_threads p st a.limit with e | ⟨m, st2⟩
      · trivial
      · rw [heq] at h; exact envOK_map _ h
    · split
      · have h := enter_exOK p st a.threadId
        rcases heq : LU.enter_thread p st a.threadId with e | ⟨m, st2⟩
        · trivial
        · rw [heq] at h; exact envOK_map _ h
      · split
        · exact envOK_map _ (lu_signout_envOK p st)
        · by_cases h1 : t = "forward_thread"
          · rw [if_pos h1]
            have h := fwd_exOK p st a.threadId
            rcases heq : LU.forward_thread p st a.threadId with e | ⟨m, st2⟩
            · cases e
              · trivial
              · exact envOK_fail _
            · rw [heq] at h; exact envOK_map _ h
          · rw [if_neg h1]
            by_cases h2 : t = "reply_to_thread"
            · rw [if_pos h2]
              have h := reply_exOK p st a.threadId
              rcases heq : LU.reply_to_thread p st a.threadId with e | ⟨m, st2⟩
              · cases e
                · trivial
                · exact envOK_fail _
              · rw [heq] at h; exact envOK_map _ h
            · rw [if_neg h2]
              by_cases h3 : t = "compose_email"
              · rw [if_pos h3]
                have h := compose_exOK p st
                rcases heq : LU.compose_email p st with e | ⟨m, st2⟩
                · cases e
                  · trivial
                  · exact envOK_fail _
                · rw [heq] at h; exact envOK_map _ h
              · rw [if_neg h3]
                by_cases h4 : t = "label_threads"
                · rw [if_pos h4]
                  have h := label_exOK p st a.threadIds
                  rcases heq : LU.label_threads p st a.threadIds
                    with e | ⟨m, st2⟩
                  · cases e
                    · trivial
                    · exact envOK_fail _
                  · rw [heq] at h; exact envOK_map _ h
                · rw [if_neg h4]
                  exact envOK_fail _

theorem resolve_loop_unique (extract : String → Option String) (s v : String)
    (hv : extract s = some v) (hne : v ≠ "") :
    ∀ l : List String, s ∈ l →
      (∀ t ∈ l, t ≠ s → extract t = none ∨ extract t = some "") →
      ∀ acc, App.resolve_loop extract acc l = some v := by
  intro l
  induction l with
  | nil => intro hmem; exact absurd hmem (List.not_mem_nil s)
  | cons c rest ih =>
    intro hmem hoth acc
    by_cases hcs : c = s
    · subst hcs
      simp only [App.resolve_loop, hv]
      simp [hne]
    · have hmem2 : s ∈ rest := by
        rcases List.mem_cons.mp hmem with h | h
        · exact absurd h.symm hcs
        · exact h
      have hoth2 : ∀ t ∈ rest, t ≠ s →
          extract t = none ∨ extract t = some "" :=
        fun t ht => hoth t (List.mem_cons_of_mem c ht)
      rcases hoth c (List.mem_cons_self c rest) hcs with h1 | h1
      · simp only [App.resolve_loop, h1]
        exact ih hmem2 hoth2 acc
      · simp only [App.resolve_loop, h1, if_pos rfl]
        exact ih hmem2 hoth2 (some "")

/-- Claim C1: every envelope returned by a tool-call operation of either
revision — enumeration, thread reading, sign-out, login-status check and the
`execute_toolcall` dispatchers — has the `{result, error, success}` shape
with `success` equal to `error is null`: true exactly when `error` is null
and false exactly when it is not. -/
theorem claim1_envelope_success_iff_error_null :
    (∀ (p : App.Page) (L : Int), envOK (App.get_current_conversations p L)) ∧
    (∀ (p : App.Page) (id : String), envOK (App.read_direct_messages p id)) ∧
    (∀ p : App.Page, envOK (App.check_login_status p)) ∧
    (∀ (p : App.Page) (st : Store), envOK (App.sign_out p st).1) ∧
    (∀ p : App.Page, envOK (App.extract_linkedin_info p)) ∧
    (∀ (p : App.Page) (st : Store) (t : String) (L : Int),
      envOK (App.execute_toolcall p st t L).1) ∧
    (∀ (p : LU.Page) (st : Store) (s : Bool) (L : Int) (v : Bool),
      exOK (LU.get_current_threads p st s L v)) ∧
    (∀ (p : LU.Page) (st : Store) (L : Int), exOK (LU.list_threads p st L)) ∧
    (∀ (p : LU.Page) (st : Store) (id : String),
      exOK (LU.enter_thread p st id)) ∧
    (∀ (p : LU.Page) (st : Store) (id : String),
      exOK (LU.forward_thread p st id)) ∧
    (∀ (p : LU.Page) (st : Store) (id : String),
      exOK (LU.reply_to_thread p st id)) ∧
    (∀ (p : LU.Page) (st : Store), exOK (LU.compose_email p st)) ∧
    (∀ (p : LU.Page) (st : Store) (ids : String),
      exOK (LU.label_threads p st ids)) ∧
    (∀ p : LU.Page, envOK (LU.check_login_status p)) ∧
    (∀ (p : LU.Page) (st : Store), envOK (LU.sign_out p st).1) ∧
    (∀ (p : LU.Page) (st : Store) (t : String) (a : LU.Args),
      exOK (LU.execute_toolcall p st t a)) :=
  ⟨gcc_envOK, rdm_envOK, app_cls_envOK, app_signout_envOK, eli_envOK,
   app_exec_envOK, gct_exOK, lt_exOK, enter_exOK, fwd_exOK, reply_exOK,
   compose_exOK, label_exOK, lu_cls_envOK, lu_signout_envOK, lu_exec_exOK⟩

/-- Claim C7: when exactly one candidate selector of an ordered list yields a
non-empty extracted value, the field resolver returns that value, and any
permutation of the candidate list returns the same value. -/
theorem claim7_resolver_unique_match_order_invariant
    (l l2 : List String) (extract : String → Option String) (s v : String)
    (hperm : l.Perm l2) (hmem : s ∈ l) (hv : extract s = some v)
    (hne : v ≠ "")
    (hothers : ∀ t ∈ l, t ≠ s → extract t = none ∨ extract t = some "") :
    App.resolve_field l extract = some v ∧
    App.resolve_field l2 extract = some v := by
  constructor
  · exact resolve_loop_unique extract s v hv hne l hmem hothers none
  · exact resolve_loop_unique extract s v hv hne l2 (hperm.subset hmem)
      (fun t ht => hothers t (hperm.symm.subset ht)) none

/-- Witness for C7: candidates `[S1, S2, S3]` where only `S2` matches, and
the permutation `[S2, S1, S3]`, both resolve to `S2`'s value. -/
theorem claim7_witness :
    App.resolve_field ["S1", "S2", "S3"] onlyS2 = some "val" ∧
    App.resolve_field ["S2", "S1", "S3"] onlyS2 = some "val" :=
  claim7_resolver_unique_match_order_invariant ["S1", "S2", "S3"]
    ["S2", "S1", "S3"] onlyS2 "S2" "val" (by decide) (by decide) (by rfl)
    (by decide) (by decide)

/-- Claim C10: `get_context_aware_available_toolcalls` returns, for an
authorized session, exactly the declared tools minus `sign_out` (so an
authorized caller is never offered `sign_out`), and for an unauthorized
session exactly the two tools `sign_out` and `check_login_status` — in both
revisions. -/
theorem claim10_context_aware_toolcalls :
    App.get_context_aware_available_toolcalls true
      = ["list_conversations", "extract_linkedin_info",
         "check_login_status"] ∧
    "sign_out" ∉ App.get_context_aware_available_toolcalls true ∧
    (∀ n ∈ App.declaredToolcalls, n ≠ "sign_out" →
      n ∈ App.get_context_aware_available_toolcalls true) ∧
    App.get_context_aware_available_toolcalls false
      = ["sign_out", "check_login_status"] ∧
    LU.get_context_aware_available_toolcalls true
      = ["list_threads", "enter_thread", "forward_thread", "reply_to_thread",
         "compose_email", "label_threads", "check_login_status"] ∧
    "sign_out" ∉ LU.get_context_aware_available_toolcalls true ∧
    (∀ n ∈ LU.declaredToolcalls, n ≠ "sign_out" →
      n ∈ LU.get_context_aware_available_toolcalls true) ∧
    LU.get_context_aware_available_toolcalls false
      = ["sign_out", "check_login_status"] := by decide

/-- Claim C2 counterexample: with the authorization check reporting
not-logged-in, the `sign_out` tool call — which the claim includes among the
operations that must raise — does NOT raise the `UnauthorizedAccess` signal:
`execute_toolcall` returns an ordinary success envelope. -/
theorem claim2_counterexample_sign_out_not_raised :
    LU.execute_toolcall pUnauth Store.empty "sign_out" {}
      = .ok (ResponseMessage.ok (LU.ToolResult.flag true), Store.empty) := rfl

/-- Claim C2, amended: when the authorization check reports not-logged-in,
the tools that call `ensure_authorized` (`list_threads`, `enter_thread`,
`forward_thread`, `reply_to_thread`, `compose_email`) raise
`UnauthorizedAccess` through `execute_toolcall`; `sign_out` and
`check_login_status` instead return ordinary envelopes without raising.  For
the four handler-guarded tools a non-authorization exception is converted
into an error envelope, while an ordinary exception escaping `enter_thread`
propagates uncaught. -/
theorem claim2_amended_unauthorized_propagation :
    (∀ (p : LU.Page) (st : Store) (a : LU.Args), p.authorized = false →
      LU.execute_toolcall p st "list_threads" a = .error .unauthorized ∧
      LU.execute_toolcall p st "enter_thread" a = .error .unauthorized ∧
      LU.execute_toolcall p st "forward_thread" a = .error .unauthorized ∧
      LU.execute_toolcall p st "reply_to_thread" a = .error .unauthorized ∧
      LU.execute_toolcall p st "compose_email" a = .error .unauthorized ∧
      LU.execute_toolcall p st "sign_out" a
        = .ok (ResponseMessage.ok (LU.ToolResult.flag true), st) ∧
      (p.loginStatusExc = none →
        LU.execute_toolcall p st "check_login_status" a
          = .ok (ResponseMessage.ok (LU.ToolResult.status p.loginStatus),
              st))) ∧
    (∀ (p : LU.Page) (st : Store) (a : LU.Args) (c : Card),
      p.authorized = true → a.threadId ≠ "" →
      LU.luFindCard p.cards a.threadId = some c →
      p.snippetBodyAppears = true → p.hasForwardBtn = true →
      p.hasComposeRegions = true → p.composeFieldsPresent = true →
      p.sendButtonPresent = false →
      LU.execute_toolcall p st "forward_thread" a
        = .ok (ResponseMessage.fail
            "Action forward_thread failed, the user should do it manually.",
            st)) ∧
    (∀ (p : LU.Page) (st : Store) (a : LU.Args) (c : Card),
      p.authorized = true → a.threadId ≠ "" →
      LU.luFindCard p.cards a.threadId = some c →
      p.snippetBodyAppears = false →
      LU.execute_toolcall p st "enter_thread" a
        = .error (.generic LU.snippetTimeoutMsg)) := by
  refine ⟨?_, ?_, ?_⟩
  · intro p st a hauth
    refine ⟨?_, ?_, ?_, ?_, ?_, ?_, ?_⟩
    · simp [LU.execute_toolcall, LU.list_threads, hauth]
    · simp [LU.execute_toolcall, LU.enter_thread, hauth]
    · simp [LU.execute_toolcall, LU.forward_thread, hauth]
    · simp [LU.execute_toolcall, LU.reply_to_thread, hauth]
    · simp [LU.execute_toolcall, LU.compose_email, hauth]
    · simp [LU.execute_toolcall, LU.sign_out, hauth, map_ok]
    · intro hexc
      simp [LU.execute_toolcall, LU.check_login_status, hexc, map_ok]
  · intro p st a c hauth hid hfind hsnip hfwd hregions hfields hsend
    simp [LU.execute_toolcall, LU.forward_thread, LU.ensure_thread_opened,
      hauth, hid, hfind, hsnip, hfwd, hregions, hfields, hsend]
  · intro p st a c hauth hid hfind hsnip
    simp [LU.execute_toolcall, LU.enter_thread, LU.ensure_thread_opened,
      hauth, hid, hfind, hsnip]

/-- Witness for the amended C2 at concrete states. -/
theorem claim2_amended_witness :
    LU.execute_toolcall pUnauth Store.empty "list_threads" {}
      = .error .unauthorized ∧
    LU.execute_toolcall pUnauth Store.empty "enter_thread" {}
      = .error .unauthorized ∧
    LU.execute_toolcall pUnauth Store.empty "compose_email" {}
      = .error .unauthorized ∧
    LU.execute_toolcall pUnauth Store.empty "check_login_status" {}
      = .ok (ResponseMessage.ok (LU.ToolResult.status pUnauth.loginStatus),
          Store.empty) ∧
    LU.execute_toolcall pSendless Store.empty "forward_thread"
        { threadId := "T" }
      = .ok (ResponseMessage.fail
          "Action forward_thread failed, the user should do it manually.",
          Store.empty) ∧
    LU.execute_toolcall pSnippetless Store.empty "enter_thread"
        { threadId := "T" }
      = .error (.generic LU.snippetTimeoutMsg) :=
  ⟨(claim2_amended_unauthorized_propagation.1 pUnauth Store.empty {} rfl).1,
   (claim2_amended_unauthorized_propagation.1 pUnauth Store.empty {} rfl).2.1,
   (claim2_amended_unauthorized_propagation.1 pUnauth Store.empty {}
     rfl).2.2.2.2.1,
   (claim2_amended_unauthorized_propagation.1 pUnauth Store.empty {}
     rfl).2.2.2.2.2.2 rfl,
   claim2_amended_unauthorized_propagation.2.1 pSendless Store.empty
     { threadId := "T" } cardT rfl (by decide) rfl rfl rfl rfl rfl rfl,
   claim2_amended_unauthorized_propagation.2.2 pSnippetless Store.empty
     { threadId := "T" } cardT rfl (by decide) rfl rfl⟩

theorem length_filterMap_of_isSome {α β : Type} (f : α → Option β) :
    ∀ l : List α, (∀ x ∈ l, (f x).isSome) →
      (l.filterMap f).length = l.length := by
  intro l
  induction l with
  | nil => intro _; rfl
  | cons a rest ih =>
    intro h
    rcases hfa : f a with _ | b
    · have := h a (List.mem_cons_self a rest)
      rw [hfa] at this
      exact absurd this (by simp)
    · simp only [List.filterMap_cons, hfa, List.length_cons]
      rw [ih (fun x hx => h x (List.mem_cons_of_mem a hx))]

/-- Claim C3 counterexample: a conversation list with true card count 2 where
one card yields neither a participant name nor a preview: with limit 30 the
returned batch has 1 record, not `min(2, 30) = 2` (the unproductive card is
silently skipped by the `if participant or preview:` guard); moreover the
envelope carries only the record list — no total count is reported
anywhere. -/
theorem claim3_counterexample_batch_size :
    (App.firstNonEmptyFilter pC3.cards App.cardSelectors).length = 2 ∧
    ((App.get_current_conversations pC3 30).result.getD []).length = 1 ∧
    ((App.get_current_conversations pC3 30).result.getD []).length
      ≠ min (App.firstNonEmptyFilter pC3.cards App.cardSelectors).length 30 :=
  ⟨by decide, by decide, by decide⟩

theorem takeLimit_subset {α : Type} (l : List α) (L : Int) :
    ∀ x ∈ takeLimit l L, x ∈ l := by
  intro x hx
  unfold takeLimit at hx
  split at hx
  · exact absurd hx (List.not_mem_nil x)
  · exact List.mem_of_mem_take hx

theorem takeLimit_length {α : Type} (l : List α) (L : Int) (hL : 0 ≤ L) :
    (takeLimit l L).length = min l.length L.toNat := by
  unfold takeLimit
  split
  · next hle =>
    have : L = 0 := le_antisymm hle hL
    subst this
    simp
  · rw [List.length_take, Nat.min_comm]

/-- Claim C3, amended: when the DOM yields a non-empty card list in which
EVERY admitted card is productive (yields a participant or a preview), a
non-negative limit `L` returns exactly `min(N, L)` records; unproductive
cards are silently skipped (so the batch can be smaller than `min(N, L)`),
and no total count is reported — the envelope holds only the record list. -/
theorem claim3_amended_batch_size (p : App.Page) (L : Int) (hL : 0 ≤ L)
    (hne : ¬(App.firstNonEmptyFilter p.cards App.cardSelectors).isEmpty)
    (hprod : ∀ c ∈ App.firstNonEmptyFilter p.cards App.cardSelectors,
      (App.processCard c).isSome) :
    ((App.get_current_conversations p L).result.getD []).length
      = min (App.firstNonEmptyFilter p.cards App.cardSelectors).length
          L.toNat := by
  unfold App.get_current_conversations
  dsimp only
  rw [if_neg (by simpa using hne), ok_result, Option.getD_some]
  unfold App.processCards
  rw [length_filterMap_of_isSome App.processCard _
    (fun c hc => hprod c (takeLimit_subset _ _ c hc))]
  exact takeLimit_length _ _ hL

/-- Witness for the amended C3: two productive cards, limit 1, yields
`min(2, 1) = 1` record. -/
theorem claim3_amended_witness :
    ((App.get_current_conversations pTwoGood 1).result.getD []).length
      = min (App.firstNonEmptyFilter pTwoGood.cards
          App.cardSelectors).length (1 : Int).toNat :=
  claim3_amended_batch_size pTwoGood 1 (by decide) (by decide) (by decide)

theorem processCards_nonpos (l : List Card) {L : Int} (hL : L ≤ 0) :
    App.processCards l L = [] := by
  unfold App.processCards takeLimit
  rw [if_pos hL]
  rfl

theorem apiRecords_eq (p : App.Page) (L : Int) (data : List App.ApiConv)
    (hc : App.csrfTruthy p.csrfToken = true)
    (hd : p.apiConversations = some data) (hne : ¬data.isEmpty) :
    App.apiRecords p L = some ((pySlice data L).map App.apiToMessage) := by
  unfold App.apiRecords
  rw [if_pos hc, hd]
  dsimp only
  rw [if_neg (by simpa using hne)]

/-- Claim C4 counterexample: with the DOM yielding zero cards, the scripted
API fallback returning two conversations, and limit `-1`, the call returns
ONE record (Python's `data[:-1]` drops only the last element) — not the empty
"process none" result the claim requires for a negative limit. -/
theorem claim4_counterexample_negative_limit_api :
    App.get_current_conversations pC4 (-1)
      = ResponseMessage.ok [App.apiToMessage apiAnn] ∧
    ((App.get_current_conversations pC4 (-1)).result.getD []).length = 1 ∧
    ((App.get_current_conversations pC4 (-1)).result.getD []).length ≠ 0 :=
  ⟨rfl, by decide, by decide⟩

/-- Claim C4, amended: a limit of 0 or negative processes no conversations
(without error) on the DOM-scraping path, and a limit of exactly 0 also
returns none on the scripted-API fallback path; but on the API path a
NEGATIVE limit `-k` instead returns all but the last `k` API conversations
(Python slice semantics), so "process none" does not hold there. -/
theorem claim4_amended_limit_edge_policy :
    (∀ (p : App.Page) (L : Int), L ≤ 0 →
      ¬(App.firstNonEmptyFilter p.cards App.cardSelectors).isEmpty →
      App.get_current_conversations p L = ResponseMessage.ok []) ∧
    (∀ (p : App.Page) (data : List App.ApiConv),
      (App.firstNonEmptyFilter p.cards App.cardSelectors).isEmpty →
      App.csrfTruthy p.csrfToken = true → p.apiConversations = some data →
      ¬data.isEmpty →
      App.get_current_conversations p 0 = ResponseMessage.ok []) ∧
    (∀ (p : App.Page) (L : Int) (data : List App.ApiConv), L < 0 →
      (App.firstNonEmptyFilter p.cards App.cardSelectors).isEmpty →
      App.csrfTruthy p.csrfToken = true → p.apiConversations = some data →
      ¬data.isEmpty →
      App.get_current_conversations p L
        = ResponseMessage.ok
            ((data.take (data.length - (-L).toNat)).map App.apiToMessage) ∧
      ((App.get_current_conversations p L).result.getD []).length
        = data.length - (-L).toNat) := by
  refine ⟨?_, ?_, ?_⟩
  · intro p L hL hne
    unfold App.get_current_conversations
    dsimp only
    rw [if_neg (by simpa using hne), processCards_nonpos _ hL]
  · intro p data hdom hc hd hne
    unfold App.get_current_conversations
    dsimp only
    rw [if_pos hdom, apiRecords_eq p 0 data hc hd hne]
    have : pySlice data 0 = [] := by
      unfold pySlice
      rw [if_pos (by omega)]
      simp
    rw [this]
    rfl
  · intro p L data hL hdom hc hd hne
    have hslice : pySlice data L = data.take (data.length - (-L).toNat) := by
      unfold pySlice
      rw [if_neg (by omega)]
    have hmain : App.get_current_conversations p L
        = ResponseMessage.ok
            ((data.take (data.length - (-L).toNat)).map App.apiToMessage) := by
      unfold App.get_current_conversations
      dsimp only
      rw [if_pos hdom, apiRecords_eq p L data hc hd hne, hslice]
    refine ⟨hmain, ?_⟩
    rw [hmain, ok_result, Option.getD_some, List.length_map,
      List.length_take]
    exact Nat.min_eq_left (Nat.sub_le _ _)

/-- Witness for the amended C4: the DOM path with limit `-2` returns nothing;
the API path with limit `0` returns nothing; the API path with limit `-1`
over two conversations returns exactly the first. -/
theorem claim4_amended_witness :
    App.get_current_conversations pC3 (-2) = ResponseMessage.ok [] ∧
    App.get_current_conversations pC4 0 = ResponseMessage.ok [] ∧
    App.get_current_conversations pC4 (-1)
      = ResponseMessage.ok
          (([apiAnn, apiBen].take (([apiAnn, apiBen] : List App.ApiConv).length
              - ((-(-1 : Int))).toNat)).map App.apiToMessage) :=
  ⟨claim4_amended_limit_edge_policy.1 pC3 (-2) (by decide) (by decide),
   claim4_amended_limit_edge_policy.2.1 pC4 [apiAnn, apiBen] (by decide)
     (by decide) rfl (by decide),
   (claim4_amended_limit_edge_policy.2.2 pC4 (-1) [apiAnn, apiBen]
     (by decide) (by decide) (by decide) rfl (by decide)).1⟩

/-- Claim C5 counterexample: a page where DOM enumeration yields zero cards,
the scripted API call fails, the reload also yields nothing, and the
client-side application state holds one conversation.  The claimed
(a)-(b)-(c) chain would return that conversation, but the code returns the
empty result: no application-state fallback exists in the source. -/
theorem claim5_counterexample_no_appstate_fallback :
    App.get_current_conversations pC5 30 = ResponseMessage.ok [] ∧
    App.specFallbackChain pC5 30 = [App.apiToMessage apiZara] ∧
    App.apiToMessage apiZara
      ∉ (App.get_current_conversations pC5 30).result.getD [] :=
  ⟨rfl, rfl, by decide⟩

/-- Claim C5, amended: when DOM enumeration yields zero cards, the fallbacks
are (a) the scripted API call authenticated via the cookie token, then (b)
one reload-and-retry of DOM scraping — first non-empty result wins; no
client-side application-state inspection exists: the result is invariant
under arbitrary changes to the application state. -/
theorem claim5_amended_fallback_order :
    (∀ (p : App.Page) (L : Int) (data : List App.ApiConv),
      (App.firstNonEmptyFilter p.cards App.cardSelectors).isEmpty →
      App.csrfTruthy p.csrfToken = true → p.apiConversations = some data →
      ¬data.isEmpty →
      App.get_current_conversations p L
        = ResponseMessage.ok ((pySlice data L).map App.apiToMessage)) ∧
    (∀ (p : App.Page) (L : Int),
      (App.firstNonEmptyFilter p.cards App.cardSelectors).isEmpty →
      App.apiRecords p L = none →
      App.get_current_conversations p L
        = ResponseMessage.ok
            (App.processCards
              (App.firstNonEmptyFilter p.reloadCards App.reloadCardSelectors)
              L)) ∧
    (∀ (p : App.Page) (L : Int) (st : Option (List App.ApiConv)),
      App.get_current_conversations { p with appState := st } L
        = App.get_current_conversations p L) := by
  refine ⟨?_, ?_, ?_⟩
  · intro p L data hdom hc hd hne
    unfold App.get_current_conversations
    dsimp only
    rw [if_pos hdom, apiRecords_eq p L data hc hd hne]
  · intro p L hdom hapi
    unfold App.get_current_conversations
    dsimp only
    rw [if_pos hdom, hapi]
    dsimp only
    split
    · next hconv2 =>
      rw [List.isEmpty_iff] at hconv2
      rw [hconv2]
      simp [App.processCards, takeLimit]
    · rfl
  · intro p L st
    rfl

/-- Witness for the amended C5: the API fallback wins on `pC4`; the reload
path is taken on `pC5`; and changing `pC5`'s application state never changes
the result. -/
theorem claim5_amended_witness :
    App.get_current_conversations pC4 30
      = ResponseMessage.ok ((pySlice [apiAnn, apiBen] 30).map
          App.apiToMessage) ∧
    App.get_current_conversations pC5 30
      = ResponseMessage.ok
          (App.processCards
            (App.firstNonEmptyFilter pC5.reloadCards App.reloadCardSelectors)
            30) ∧
    App.get_current_conversations { pC5 with appState := none } 30
      = App.get_current_conversations pC5 30 :=
  ⟨claim5_amended_fallback_order.1 pC4 30 [apiAnn, apiBen] (by decide)
     (by decide) rfl (by decide),
   claim5_amended_fallback_order.2.1 pC5 30 (by decide) (by decide),
   claim5_amended_fallback_order.2.2 pC5 30 none⟩

/-- Claim C6 counterexample: `cache_element` SKIPS the write when an entry
already exists for the key (the old value survives), and `enter_thread`
serves the thread snapshot cached by a previous extraction call (`oldThread`,
with no messages) even though the live thread now contains the message
`newMail` — the result is not produced fresh. -/
theorem claim6_counterexample_cached_not_fresh :
    cache_element "k" "new" [("k", "old")] = (true, [("k", "old")]) ∧
    assocGet (cache_element "k" "new" [("k", "old")]).2 "k" = some "old" ∧
    LU.enter_thread pC6 storeC6 "T"
      = .ok (ResponseMessage.ok oldThread, storeC6) ∧
    oldThread.mails ≠ [newMail] ∧
    (pC6.fetchMail "m1" = some newMail) :=
  ⟨by decide, by decide, rfl, by decide, rfl⟩

/-- Claim C6, amended: writes are key-guarded, not replacing — for a key that
already has an entry, `cache_element` returns without writing; and
`enter_thread` serves the cached `mail-thread-{id}` snapshot whenever one
exists (fresh extraction happens only on a cache miss), even ignoring the
Boolean outcome of `ensure_thread_opened`. -/
theorem claim6_amended_cache_semantics :
    (∀ (α : Type) (key : String) (v : α) (m : List (String × α)) (w : α),
      key ≠ "" → assocGet m key = some w →
      cache_element key v m = (true, m)) ∧
    (∀ (p : LU.Page) (st : Store) (id : String) (t : EMailThread),
      p.authorized = true → id ≠ "" →
      LU.luFindCard p.cards id = none →
      assocGet st.threadElements ("linkedin-thread-element-" ++ id) = none →
      assocGet st.mailThreads ("mail-thread-" ++ id) = some t →
      LU.enter_thread p st id = .ok (ResponseMessage.ok t, st)) := by
  constructor
  · intro α key v m w hkey hold
    unfold cache_element
    rw [if_neg hkey, if_pos (by simp [hold])]
  · intro p st id t hauth hid hfind helem hthread
    simp [LU.enter_thread, LU.ensure_thread_opened, hauth, hid, hfind,
      helem, hthread]

/-- Witness for the amended C6 at the concrete stale cache. -/
theorem claim6_amended_witness :
    cache_element "k" "new" [("k", "old")] = (true, [("k", "old")]) ∧
    LU.enter_thread pC6 storeC6 "T"
      = .ok (ResponseMessage.ok oldThread, storeC6) :=
  ⟨claim6_amended_cache_semantics.1 String "k" "new" [("k", "old")] "old"
     (by decide) (by decide),
   claim6_amended_cache_semantics.2 pC6 storeC6 "T" oldThread rfl (by decide)
     rfl rfl (by decide)⟩

/-- Claim C8 counterexample: opening by the stored positional index `5`
against a live card count of 3 does NOT fail with an out-of-range error — the
`a[href*="/messaging/thread/5"]` substring selector silently resolves to the
unrelated conversation `567`, clicks it, and the operation reports
success. -/
theorem claim8_counterexample_substring_click :
    App.ensure_thread_opened pC8 "5" = (true, [Click.card c567]) ∧
    pC8.cards.length = 3 ∧
    c567.dataConversationId ≠ some "5" ∧
    c567.dataThreadId ≠ some "5" ∧
    c567.dataTestConversationId ≠ some "5" :=
  ⟨by decide, rfl, by decide, by decide, by decide⟩

/-- Claim C8, amended: no `index < card_count` bounds check exists in either
revision.  In the LU revision an index-addressed open for which no card
carries the id and nothing was cached fails with a generic not-found `False`
(no out-of-range error) and clicks nothing; in the `src/app` revision, when
the three attribute lookups fail but some card's thread href CONTAINS the
index as a substring, that unrelated card is clicked and the open reports
success. -/
theorem claim8_amended_no_bounds_check :
    (∀ (p : LU.Page) (st : Store) (id : String),
      LU.luFindCard p.cards id = none →
      assocGet st.threadElements ("linkedin-thread-element-" ++ id) = none →
      LU.ensure_thread_opened p st id = .ok (false, [])) ∧
    (∀ (p : App.Page) (id : String) (c : Card),
      App.findByAttr p.cards (fun c => c.dataTestConversationId) id = none →
      App.findByAttr p.cards (fun c => c.dataConversationId) id = none →
      App.findByAttr p.cards (fun c => c.dataThreadId) id = none →
      App.findByHref p.cards id = some c →
      p.messageContainerAppears = true →
      App.ensure_thread_opened p id = (true, [Click.card c])) := by
  constructor
  · intro p st id hfind helem
    simp [LU.ensure_thread_opened, hfind, helem]
  · intro p id c h1 h2 h3 h4 hwait
    simp [App.ensure_thread_opened, App.lookupConversation, h1, h2, h3, h4,
      hwait, Option.orElse]

/-- Witness for the amended C8: the LU opener fails silently without a click
for index `5` on an empty-cache page, and the `src/app` opener clicks the
unrelated card `567` for the same index. -/
theorem claim8_amended_witness :
    LU.ensure_thread_opened pC6 Store.empty "5" = .ok (false, []) ∧
    App.ensure_thread_opened pC8 "5" = (true, [Click.card c567]) :=
  ⟨claim8_amended_no_bounds_check.1 pC6 Store.empty "5" rfl rfl,
   claim8_amended_no_bounds_check.2 pC8 "5" c567 (by decide) (by decide)
     (by decide) (by decide) rfl⟩

/-- Claim C9 counterexample: a thread whose scraped DOM has one message and
NO timestamp element.  The claim requires a null timestamp, but the code
substitutes the placeholder string "Unknown" — and no date-divider /
time-fragment combination happens anywhere. -/
theorem claim9_counterexample_placeholder_timestamp :
    App.read_direct_messages pC9 "T1"
      = ResponseMessage.ok
          [{ sender := "A", text := "hi", timestamp := "Unknown" }] ∧
    ((App.read_direct_messages pC9 "T1").result.getD []).map
        (fun m => m.timestamp) = ["Unknown"] :=
  ⟨rfl, by decide⟩

/-- Claim C9, amended: message extraction has no date-divider state machine;
on the scraping path each message's timestamp is the raw innerText of the
timestamp element at the SAME index, and when no such element exists the
placeholder string "Unknown" is substituted — never a null and never a
combined absolute date-time. -/
theorem claim9_amended_scraped_timestamps (p : App.Page) (id : String)
    (hopen : (App.ensure_thread_opened p id).1 = true)
    (hapi : p.apiEvents = none) (hnb : ¬p.msgBodies.isEmpty) :
    (App.read_direct_messages p id).error = none ∧
    ((App.read_direct_messages p id).result.getD []).length
      = p.msgBodies.length ∧
    ∀ i, i < p.msgBodies.length →
      (((App.read_direct_messages p id).result.getD []).getD i
          { sender := "", text := "", timestamp := "" }).timestamp
        = p.msgTimestamps.getD i "Unknown" := by
  have hscrape : ¬(App.scrapeMessages p).isEmpty = true := by
    intro hemp
    rw [List.isEmpty_iff] at hemp
    have hlen : p.msgBodies.length = 0 := by
      have := congrArg List.length hemp
      simpa [App.scrapeMessages] using this
    exact hnb (by rw [List.isEmpty_iff]; exact List.length_eq_zero.mp hlen)
  have hval : App.read_direct_messages p id
      = ResponseMessage.ok (App.scrapeMessages p) := by
    unfold App.read_direct_messages
    rw [if_neg (by simp [hopen])]
    dsimp only
    have h1 : App.apiMessages p = none := by simp [App.apiMessages, hapi]
    rw [h1]
    simp only [Option.getD_none, List.isEmpty_nil, if_true]
    rw [if_neg hscrape]
  rw [hval, ok_error, ok_result, Option.getD_some]
  refine ⟨rfl, by simp [App.scrapeMessages], ?_⟩
  intro i hi
  unfold App.scrapeMessages
  rw [List.getD_eq_getElem?_getD, List.getElem?_map, List.getElem?_range hi]
  rfl

/-- Witness for the amended C9: the single scraped message of `pC9` gets the
placeholder timestamp. -/
theorem claim9_amended_witness :
    (((App.read_direct_messages pC9 "T1").result.getD []).getD 0
        { sender := "", text := "", timestamp := "" }).timestamp
      = pC9.msgTimestamps.getD 0 "Unknown" :=
  (claim9_amended_scraped_timestamps pC9 "T1" (by decide) rfl
    (by decide)).2.2 0 (by decide)
